import Mathlib

/-!
Verification development for the AI-CV-Evaluation backend, an HTTP relay
with two variants of the upload-forwarding endpoint:

* the memory-buffered variant (`src/server.js`): multer memoryStorage with a
  10 MiB limit, forwards the uploaded file to a fixed n8n webhook URL, and
  maps axios failures to 504 / 502 / 503 / 500;
* the disk-staged variant (`src/unnamed/part_000`): multer dest storage in
  `uploads/`, forwards via a read stream of the staged temp file, deletes the
  staged file on every exit path, and maps axios failures to 502 / 503 / 500
  (it has no ECONNABORTED branch).

The JavaScript handlers are embedded as pure Lean functions over an explicit
model of the downstream behaviour (the axios call outcome), the outbound
requests issued, and (for the disk variant) the staged-file filesystem state.
-/

namespace CVRelay

/-- Model of a JSON value, used for request/response bodies.
Numbers are modelled as integers (the bodies built by the handlers only ever
contain strings, booleans and nested opaque bodies). -/
inductive Json where
  | null : Json
  | bool (b : Bool) : Json
  | num (n : Int) : Json
  | str (s : String) : Json
  | arr (xs : List Json) : Json
  | obj (fields : List (String × Json)) : Json

/-- Field lookup on a JSON object; `none` on non-objects and absent keys. -/
def Json.getField : Json → String → Option Json
  | .obj fields, k => (fields.find? (fun p => p.1 == k)).map (fun p => p.2)
  | _, _ => none

/-- Escaping of a single character as done by JSON.stringify (quote,
backslash and the common control characters; other characters pass through). -/
def escapeJsonChar (c : Char) : String :=
  if c = '"' then "\\\""
  else if c = '\\' then "\\\\"
  else if c = '\n' then "\\n"
  else if c = '\t' then "\\t"
  else if c = '\r' then "\\r"
  else String.singleton c

/-- Escaping of a string as done by JSON.stringify. -/
def escapeJson (s : String) : String :=
  String.join (s.toList.map escapeJsonChar)

mutual

/-- Model of JSON.stringify, used by the disk-staged variant to embed the
downstream error body into its 502 message. -/
def jsonStringify : Json → String
  | .null => "null"
  | .bool b => if b then "true" else "false"
  | .num n => toString n
  | .str s => "\"" ++ escapeJson s ++ "\""
  | .arr xs => "[" ++ jsonStringifyArr xs ++ "]"
  | .obj fields => "\x7b" ++ jsonStringifyObj fields ++ "\x7d"

/-- Comma-separated serialization of a JSON array's elements. -/
def jsonStringifyArr : List Json → String
  | [] => ""
  | [x] => jsonStringify x
  | x :: y :: xs => jsonStringify x ++ "," ++ jsonStringifyArr (y :: xs)

/-- Comma-separated serialization of a JSON object's fields. -/
def jsonStringifyObj : List (String × Json) → String
  | [] => ""
  | [(k, v)] => "\"" ++ escapeJson k ++ "\":" ++ jsonStringify v
  | (k, v) :: p :: fields =>
      "\"" ++ escapeJson k ++ "\":" ++ jsonStringify v ++ "," ++
        jsonStringifyObj (p :: fields)

end

/-- An uploaded file as exposed by multer on `req.file`: the original client
filename, the byte content, and the size in bytes. -/
structure UploadedFile where
  originalname : String
  content : List Nat
  size : Nat
deriving DecidableEq

/-- Behaviour of the downstream webhook (or of the dispatch itself) for one
outbound axios call:

* `respond status body` — the downstream answered with an HTTP status and body;
* `refuse` — network-level failure, no response received (connection
  refused/reset): axios rejects with `error.request` set and no
  `error.response`;
* `hang` — the downstream exceeded the configured axios timeout: axios rejects
  with `error.code = "ECONNABORTED"`, `error.request` set, no `error.response`;
* `exn msg` — a local exception thrown before the request was dispatched
  (e.g. while building the form data): the rejection carries neither
  `error.response` nor `error.request`, only a message. -/
inductive DownstreamBehavior where
  | respond (status : Nat) (body : Json) : DownstreamBehavior
  | refuse : DownstreamBehavior
  | hang : DownstreamBehavior
  | exn (msg : String) : DownstreamBehavior

/-- Whether the outbound request was actually dispatched on the wire (false
only for a local pre-dispatch exception). -/
def DownstreamBehavior.dispatched : DownstreamBehavior → Bool
  | .exn _ => false
  | _ => true

/-- An outbound multipart POST issued by a handler: target URL, multipart
field name, filename given to the part, and the byte content of the part. -/
structure OutboundRequest where
  url : String
  fieldName : String
  filename : String
  content : List Nat
deriving DecidableEq

/-- An HTTP response sent back to the relay's client. -/
structure HttpResponse where
  status : Nat
  body : Json

/-- The axios default 2xx success predicate (validateStatus). -/
def is2xx (s : Nat) : Bool := 200 ≤ s && s < 300

/-- Outcome of `await axios.post(...)` as observed by the handlers' catch
blocks: fulfilled with a 2xx response, or rejected with one of the error
shapes the catch blocks discriminate on. -/
inductive AxiosResult where
  | ok (status : Nat) (body : Json) : AxiosResult
  | errTimeout : AxiosResult
  | errResponse (status : Nat) (body : Json) : AxiosResult
  | errRequest : AxiosResult
  | errOther (msg : String) : AxiosResult

/-- Semantics of the axios call: a 2xx downstream response fulfils the
promise, a non-2xx response rejects with `error.response` populated, a
timeout rejects with code ECONNABORTED, a network-level failure rejects with
only `error.request`, and a local exception rejects with only a message. -/
def axiosPost (d : DownstreamBehavior) : AxiosResult :=
  match d with
  | .respond s b => if is2xx s then .ok s b else .errResponse s b
  | .hang => .errTimeout
  | .refuse => .errRequest
  | .exn m => .errOther m

/-- The fixed downstream webhook URL of the memory-buffered variant
(`src/server.js`). -/
def memoryN8nUrl : String :=
  "https://opticat.app.n8n.cloud/webhook/04d3ce21-08a5-4ac9-90a9-4fe11789804d"

/-- The fixed downstream webhook URL of the disk-staged variant
(`src/unnamed/part_000`); note the differing `webhook-test` path segment. -/
def diskN8nUrl : String :=
  "https://opticat.app.n8n.cloud/webhook-test/04d3ce21-08a5-4ac9-90a9-4fe11789804d"

/-- The outbound requests produced by one handler invocation for file `f`
against URL `url`: exactly one multipart request with field name `resume`,
the original filename and the file's bytes — unless a local exception
prevented the dispatch, in which case none. -/
def outboundOf (url : String) (f : UploadedFile) (d : DownstreamBehavior) :
    List OutboundRequest :=
  match d with
  | .exn _ => []
  | _ => [⟨url, "resume", f.originalname, f.content⟩]

/-- Result of one memory-buffered handler invocation: the client response and
the outbound requests issued. -/
structure MemoryResult where
  response : HttpResponse
  outbound : List OutboundRequest

/-- Embedding of the memory-buffered upload handler
(`src/server.js`, POST /api/upload):

* missing file → 400 with body containing an error field "File missing", no
  outbound call;
* otherwise one outbound multipart POST of the buffered bytes to
  `memoryN8nUrl`; on 2xx the downstream body is returned verbatim with
  status 200; the catch block maps ECONNABORTED to 504, `error.response`
  to 502 with the downstream status in the error string and the downstream
  body under `details`, `error.request` to 503, and anything else to 500. -/
def memoryUploadHandler (reqFile : Option UploadedFile)
    (d : DownstreamBehavior) : MemoryResult :=
  match reqFile with
  | none => ⟨⟨400, .obj [("error", .str "File missing")]⟩, []⟩
  | some f =>
    let out := outboundOf memoryN8nUrl f d
    match axiosPost d with
    | .ok _ b => ⟨⟨200, b⟩, out⟩
    | .errTimeout =>
        ⟨⟨504, .obj [("error",
          .str "Request timeout - server took too long to respond")]⟩, out⟩
    | .errResponse s b =>
        ⟨⟨502, .obj [("error", .str ("N8N Error: " ++ toString s)),
          ("details", b)]⟩, out⟩
    | .errRequest =>
        ⟨⟨503, .obj [("error", .str "Cannot reach N8N service")]⟩, out⟩
    | .errOther m => ⟨⟨500, .obj [("error", .str m)]⟩, out⟩

/-- Filesystem state of the disk-staged variant's per-request temp file,
together with instrumentation counting unlink calls. -/
structure FsState where
  stagedExists : Bool
  unlinkOnExisting : Nat
  unlinkOnMissing : Nat
deriving DecidableEq

/-- Model of `fs.unlinkSync(filePath)` on the staged path: removes the file
when present; an attempt on an absent file is counted (in Node it would
throw ENOENT). -/
def unlinkStaged (st : FsState) : FsState :=
  if st.stagedExists then
    ⟨false, st.unlinkOnExisting + 1, st.unlinkOnMissing⟩
  else
    ⟨false, st.unlinkOnExisting, st.unlinkOnMissing + 1⟩

/-- Model of the guarded cleanup statement
`if (filePath && fs.existsSync(filePath)) fs.unlinkSync(filePath)` used on
both the success path and the catch path of the disk-staged variant. -/
def cleanupStaged (hasPath : Bool) (st : FsState) : FsState :=
  if hasPath && st.stagedExists then unlinkStaged st else st

/-- Result of one disk-staged handler invocation: the client response, the
outbound requests issued, and the final staged-file filesystem state. -/
structure DiskResult where
  response : HttpResponse
  outbound : List OutboundRequest
  fs : FsState

/-- Embedding of the disk-staged upload handler
(`src/unnamed/part_000`, POST /api/upload):

* missing file → 400 `(success:false, message:"File missing")`; multer staged
  nothing, so there is no temp file and no cleanup;
* otherwise multer has staged the uploaded bytes in a temp file
  (`stagedExists = true`); the handler streams it in one outbound multipart
  POST to `diskN8nUrl`; on 2xx it runs the guarded cleanup and returns 200
  with the downstream body wrapped as `(success, data, message)`; the catch
  block first runs the same guarded cleanup, then maps `error.response` to
  502 with the status and the JSON-stringified downstream body inside the
  message, any rejection with `error.request` but no response (this includes
  ECONNABORTED timeouts — there is no timeout-specific branch) to 503, and
  anything else to 500. -/
def diskUploadHandler (reqFile : Option UploadedFile)
    (d : DownstreamBehavior) : DiskResult :=
  match reqFile with
  | none =>
    ⟨⟨400, .obj [("success", .bool false), ("message", .str "File missing")]⟩,
      [], ⟨false, 0, 0⟩⟩
  | some f =>
    let st0 : FsState := ⟨true, 0, 0⟩
    let out := outboundOf diskN8nUrl f d
    match axiosPost d with
    | .ok _ b =>
      let st1 := cleanupStaged true st0
      ⟨⟨200, .obj [("success", .bool true), ("data", b),
        ("message", .str "File processed successfully")]⟩, out, st1⟩
    | .errResponse s b =>
      let st1 := cleanupStaged true st0
      ⟨⟨502, .obj [("success", .bool false),
        ("message", .str ("N8N Error: " ++ toString s ++ " - " ++
          jsonStringify b))]⟩, out, st1⟩
    | .errTimeout =>
      let st1 := cleanupStaged true st0
      ⟨⟨503, .obj [("success", .bool false),
        ("message", .str "Cannot reach N8N service")]⟩, out, st1⟩
    | .errRequest =>
      let st1 := cleanupStaged true st0
      ⟨⟨503, .obj [("success", .bool false),
        ("message", .str "Cannot reach N8N service")]⟩, out, st1⟩
    | .errOther m =>
      let st1 := cleanupStaged true st0
      ⟨⟨500, .obj [("success", .bool false), ("message", .str m)]⟩, out, st1⟩

/-- Size-limit setting for axios `maxContentLength` / `maxBodyLength`:
absent from the options object, explicitly `Infinity`, or a byte bound. -/
inductive SizeLimitSetting where
  | unset : SizeLimitSetting
  | unlimited : SizeLimitSetting
  | bytes (n : Nat) : SizeLimitSetting
deriving DecidableEq

/-- The axios request options a variant passes to `axios.post` (beyond the
multipart headers): timeout in milliseconds and the two size-limit options. -/
structure AxiosOptions where
  timeout : Nat
  maxContentLength : SizeLimitSetting
  maxBodyLength : SizeLimitSetting
deriving DecidableEq

/-- The process environment (`process.env`), as a partial map from variable
names to values. -/
def Env : Type := String → Option String

/-- Axios options of the memory-buffered variant (`src/server.js` line 182):
the literal `timeout: 300000` and no size-limit options. The options object
contains no reference to the environment. -/
def memoryAxiosOptions (_env : Env) : AxiosOptions :=
  ⟨300000, .unset, .unset⟩

/-- Axios options of the disk-staged variant (`src/unnamed/part_000`
line 48): the literal `timeout: 30000` and both size-limit options set to
`Infinity`. The options object contains no reference to the environment. -/
def diskAxiosOptions (_env : Env) : AxiosOptions :=
  ⟨30000, .unlimited, .unlimited⟩

/-- The multer file-size limit of the memory-buffered variant
(`src/server.js` line 34): 10 MiB. -/
def memoryFileSizeLimit : Nat := 10 * 1024 * 1024

/-- Whether `src/server.js` registers an Express error-handling middleware
(a 4-argument `app.use((err, req, res, next) => ...)`): it does not, so
errors emitted by route middleware such as multer fall through to the
framework's default error handler, which renders an HTML error page rather
than a JSON body. -/
def memoryErrorMiddlewareRegistered : Bool := false

/-- Outcome of the full request pipeline of the memory-buffered variant:
either a response produced by application code (the upload handler), or the
framework's default error page for a middleware error that no registered
error handler intercepted. -/
inductive PipelineOutcome where
  | appResponse (response : HttpResponse) (outbound : List OutboundRequest) :
      PipelineOutcome
  | frameworkErrorPage (code : String) : PipelineOutcome

/-- The memory-buffered variant's request pipeline for POST /api/upload:
multer's memoryStorage enforces the 10 MiB `fileSize` limit while reading
the multipart body; a file within the limit (or an absent file) reaches the
route handler, while an oversized file makes multer emit a LIMIT_FILE_SIZE
`MulterError` before the handler runs — and since `src/server.js` registers
no error-handling middleware, that error is rendered by the framework's
default error page. -/
def memoryPipeline (reqFile : Option UploadedFile)
    (d : DownstreamBehavior) : PipelineOutcome :=
  match reqFile with
  | none =>
    let r := memoryUploadHandler none d
    .appResponse r.response r.outbound
  | some f =>
    if f.size ≤ memoryFileSizeLimit then
      let r := memoryUploadHandler (some f) d
      .appResponse r.response r.outbound
    else
      .frameworkErrorPage "LIMIT_FILE_SIZE"

/-- Whether a pipeline outcome delivers the client a JSON body carrying an
error or message field (the framework's default error page is HTML, not
JSON). -/
def hasJsonErrorBody : PipelineOutcome → Bool
  | .appResponse r _ =>
      (r.body.getField "error").isSome || (r.body.getField "message").isSome
  | .frameworkErrorPage _ => false

/-- Outcome of `fetchSalesforceAccessToken` as observed by its callers:
either the token endpoint's response data (carrying `instance_url`), or a
thrown error with a message. -/
inductive TokenOutcome where
  | ok (instanceUrl : String) : TokenOutcome
  | err (msg : String) : TokenOutcome

/-- Embedding of the GET /api/test-salesforce handler (`src/server.js`
line 265): on token-exchange success it answers with `res.json` (status 200)
and a body with `success: true`, `connected: true` and the instance URL; on
failure the catch block also answers with `res.json` (status 200) and a body
with `success: false`, `connected: false` and a message — no 5xx is ever
produced. -/
def testSalesforceHandler : TokenOutcome → HttpResponse
  | .ok u =>
    ⟨200, .obj [("success", .bool true),
      ("message", .str "Salesforce connection successful - ready to log data"),
      ("connected", .bool true),
      ("instanceUrl", .str u),
      ("canSave", .bool false),
      ("mode", .str "logging")]⟩
  | .err m =>
    ⟨200, .obj [("success", .bool false),
      ("message", .str ("Salesforce connection failed: " ++ m)),
      ("connected", .bool false)]⟩

/-- A concrete sample upload used by closed witness and counterexample
statements. -/
def sampleFile : UploadedFile := ⟨"cv.pdf", [37, 80, 68, 70], 4⟩

/-- A concrete upload exceeding the memory variant's 10 MiB multer limit. -/
def oversizedFile : UploadedFile :=
  ⟨"big.pdf", List.replicate (10 * 1024 * 1024 + 1) 0, 10 * 1024 * 1024 + 1⟩

/-- A concrete downstream error body used by closed witness statements. -/
def sampleErrorBody : Json := Json.obj [("reason", Json.str "bad input")]

/-- Claim C1 (counterexample): on a timeout the disk-staged variant does not
return 504 — its catch block has no ECONNABORTED branch, so the timeout
rejection (which carries `error.request` but no `error.response`) falls into
the `error.request` branch and the relay answers 503. -/
theorem timeout_disk_status_counterexample :
    (diskUploadHandler (some sampleFile) DownstreamBehavior.hang).response.status
      ≠ 504 ∧
    (diskUploadHandler (some sampleFile) DownstreamBehavior.hang).response.status
      = 503 := by
  exact ⟨by decide, rfl⟩

/-- Claim C1 (amended): if the downstream call exceeds the configured
deadline, the memory-buffered variant returns 504; the disk-staged variant,
whose catch block has no timeout-specific branch, returns 503 with the
message "Cannot reach N8N service" — but it does still delete the staged
temporary file before responding. -/
theorem timeout_status_and_cleanup (f : UploadedFile) :
    (memoryUploadHandler (some f) DownstreamBehavior.hang).response.status = 504 ∧
    (diskUploadHandler (some f) DownstreamBehavior.hang).response =
      ⟨503, Json.obj [("success", Json.bool false),
        ("message", Json.str "Cannot reach N8N service")]⟩ ∧
    (diskUploadHandler (some f) DownstreamBehavior.hang).fs.stagedExists = false ∧
    (diskUploadHandler (some f) DownstreamBehavior.hang).fs.unlinkOnExisting = 1 :=
  ⟨rfl, rfl, rfl, rfl⟩

/-- Claim C2 (counterexample): on a missing file the disk-staged variant does
return 400, but its body is `(success: false, message: "File missing")`, not
`(error: "File missing")`. -/
theorem missing_file_disk_body_counterexample :
    (diskUploadHandler none DownstreamBehavior.hang).response.status = 400 ∧
    (diskUploadHandler none DownstreamBehavior.hang).response.body ≠
      Json.obj [("error", Json.str "File missing")] := by
  refine ⟨rfl, ?_⟩
  simp [diskUploadHandler]

/-- Claim C2 (amended): with no file present both variants return 400 and
issue no outbound call; the memory-buffered body is
`(error: "File missing")` while the disk-staged body is
`(success: false, message: "File missing")`. -/
theorem missing_file_responses (d : DownstreamBehavior) :
    memoryUploadHandler none d =
      ⟨⟨400, Json.obj [("error", Json.str "File missing")]⟩, []⟩ ∧
    diskUploadHandler none d =
      ⟨⟨400, Json.obj [("success", Json.bool false),
        ("message", Json.str "File missing")]⟩, [], ⟨false, 0, 0⟩⟩ :=
  ⟨rfl, rfl⟩

/-- Claim C3: for every upload with a file present, as long as no local
exception prevents the dispatch, each variant issues exactly one outbound
POST to its fixed downstream URL, a multipart body with the single field
name "resume" carrying exactly the uploaded bytes and the original
filename. -/
theorem single_outbound_request (f : UploadedFile) (d : DownstreamBehavior)
    (h : d.dispatched = true) :
    (memoryUploadHandler (some f) d).outbound =
      [⟨memoryN8nUrl, "resume", f.originalname, f.content⟩] ∧
    (diskUploadHandler (some f) d).outbound =
      [⟨diskN8nUrl, "resume", f.originalname, f.content⟩] := by
  cases d with
  | respond s b =>
      by_cases h2 : is2xx s = true <;>
        simp [memoryUploadHandler, diskUploadHandler, outboundOf, axiosPost, h2]
  | refuse =>
      simp [memoryUploadHandler, diskUploadHandler, outboundOf, axiosPost]
  | hang =>
      simp [memoryUploadHandler, diskUploadHandler, outboundOf, axiosPost]
  | exn m =>
      simp [DownstreamBehavior.dispatched] at h

/-- Witness for claim C3 at a concrete upload and a 2xx downstream. -/
theorem single_outbound_request_witness :
    DownstreamBehavior.dispatched (DownstreamBehavior.respond 200 Json.null)
      = true ∧
    ((memoryUploadHandler (some sampleFile)
        (DownstreamBehavior.respond 200 Json.null)).outbound =
      [⟨memoryN8nUrl, "resume", "cv.pdf", [37, 80, 68, 70]⟩] ∧
     (diskUploadHandler (some sampleFile)
        (DownstreamBehavior.respond 200 Json.null)).outbound =
      [⟨diskN8nUrl, "resume", "cv.pdf", [37, 80, 68, 70]⟩]) :=
  ⟨rfl, single_outbound_request sampleFile (DownstreamBehavior.respond 200 Json.null) rfl⟩

/-- Claim C4: when the downstream responds with a 2xx status, the
memory-buffered variant returns 200 with the downstream body verbatim, and
the disk-staged variant returns 200 with the downstream body wrapped as
`(success, data, message)`. -/
theorem downstream_success_responses (f : UploadedFile) (s : Nat) (b : Json)
    (h : is2xx s = true) :
    (memoryUploadHandler (some f) (DownstreamBehavior.respond s b)).response =
      ⟨200, b⟩ ∧
    (diskUploadHandler (some f) (DownstreamBehavior.respond s b)).response =
      ⟨200, Json.obj [("success", Json.bool true), ("data", b),
        ("message", Json.str "File processed successfully")]⟩ := by
  simp [memoryUploadHandler, diskUploadHandler, axiosPost, h]

/-- Witness for claim C4 at a concrete upload and downstream status 200. -/
theorem downstream_success_responses_witness :
    is2xx 200 = true ∧
    ((memoryUploadHandler (some sampleFile)
        (DownstreamBehavior.respond 200 sampleErrorBody)).response =
      ⟨200, sampleErrorBody⟩ ∧
     (diskUploadHandler (some sampleFile)
        (DownstreamBehavior.respond 200 sampleErrorBody)).response =
      ⟨200, Json.obj [("success", Json.bool true), ("data", sampleErrorBody),
        ("message", Json.str "File processed successfully")]⟩) :=
  ⟨rfl, downstream_success_responses sampleFile 200 sampleErrorBody rfl⟩

/-- Claim C5: when the downstream responds with a non-2xx status, both
variants return 502; the memory-buffered body carries the downstream status
inside the error string and the downstream body verbatim under `details`,
and the disk-staged body carries the status and the JSON-stringified
downstream body inside its message string. -/
theorem downstream_http_error_responses (f : UploadedFile) (s : Nat) (b : Json)
    (h : is2xx s = false) :
    (memoryUploadHandler (some f) (DownstreamBehavior.respond s b)).response =
      ⟨502, Json.obj [("error", Json.str ("N8N Error: " ++ toString s)),
        ("details", b)]⟩ ∧
    (diskUploadHandler (some f) (DownstreamBehavior.respond s b)).response =
      ⟨502, Json.obj [("success", Json.bool false),
        ("message", Json.str ("N8N Error: " ++ toString s ++ " - " ++
          jsonStringify b))]⟩ ∧
    (diskUploadHandler (some f) (DownstreamBehavior.respond s b)).fs.stagedExists
      = false := by
  simp [memoryUploadHandler, diskUploadHandler, axiosPost, h, cleanupStaged,
    unlinkStaged]

/-- Witness for claim C5 at a concrete upload and downstream status 500. -/
theorem downstream_http_error_responses_witness :
    is2xx 500 = false ∧
    ((memoryUploadHandler (some sampleFile)
        (DownstreamBehavior.respond 500 sampleErrorBody)).response =
      ⟨502, Json.obj [("error", Json.str ("N8N Error: " ++ toString 500)),
        ("details", sampleErrorBody)]⟩ ∧
     (diskUploadHandler (some sampleFile)
        (DownstreamBehavior.respond 500 sampleErrorBody)).response =
      ⟨502, Json.obj [("success", Json.bool false),
        ("message", Json.str ("N8N Error: " ++ toString 500 ++ " - " ++
          jsonStringify sampleErrorBody))]⟩ ∧
     (diskUploadHandler (some sampleFile)
        (DownstreamBehavior.respond 500 sampleErrorBody)).fs.stagedExists
       = false) :=
  ⟨rfl, downstream_http_error_responses sampleFile 500 sampleErrorBody rfl⟩

/-- Claim C6 (counterexample): on a network-level failure with no response
the memory-buffered variant does return 503, but its body is
`(error: "Cannot reach N8N service")`, not
`(error: "Cannot reach downstream service")`. -/
theorem unreachable_message_counterexample :
    (memoryUploadHandler (some sampleFile) DownstreamBehavior.refuse).response.status
      = 503 ∧
    (memoryUploadHandler (some sampleFile) DownstreamBehavior.refuse).response.body
      ≠ Json.obj [("error", Json.str "Cannot reach downstream service")] := by
  refine ⟨rfl, ?_⟩
  simp [memoryUploadHandler, axiosPost]

/-- Claim C6 (amended): on a network-level failure with no response received
both variants return 503; the memory-buffered body is
`(error: "Cannot reach N8N service")` and the disk-staged body is
`(success: false, message: "Cannot reach N8N service")`. -/
theorem unreachable_responses (f : UploadedFile) :
    (memoryUploadHandler (some f) DownstreamBehavior.refuse).response =
      ⟨503, Json.obj [("error", Json.str "Cannot reach N8N service")]⟩ ∧
    (diskUploadHandler (some f) DownstreamBehavior.refuse).response =
      ⟨503, Json.obj [("success", Json.bool false),
        ("message", Json.str "Cannot reach N8N service")]⟩ ∧
    (diskUploadHandler (some f) DownstreamBehavior.refuse).fs.stagedExists
      = false :=
  ⟨rfl, rfl, rfl⟩

/-- Claim C7: in the disk-staged variant, on every code path (downstream
success, downstream error, timeout, or a local exception after staging) the
staged temporary file is deleted exactly once — never leaked, and never
unlinked when already absent; when no file was staged, no unlink happens at
all. -/
theorem staged_file_cleanup_exactly_once (f : UploadedFile)
    (d : DownstreamBehavior) :
    (diskUploadHandler (some f) d).fs.unlinkOnExisting = 1 ∧
    (diskUploadHandler (some f) d).fs.unlinkOnMissing = 0 ∧
    (diskUploadHandler (some f) d).fs.stagedExists = false ∧
    (diskUploadHandler none d).fs.unlinkOnExisting = 0 ∧
    (diskUploadHandler none d).fs.unlinkOnMissing = 0 := by
  cases d with
  | respond s b =>
      by_cases h2 : is2xx s = true <;>
        simp [diskUploadHandler, axiosPost, cleanupStaged, unlinkStaged, h2]
  | refuse =>
      simp [diskUploadHandler, axiosPost, cleanupStaged, unlinkStaged]
  | hang =>
      simp [diskUploadHandler, axiosPost, cleanupStaged, unlinkStaged]
  | exn m =>
      simp [diskUploadHandler, axiosPost, cleanupStaged, unlinkStaged]

/-- Claim C8 (counterexample): neither variant's axios options depend on the
environment — the timeouts are the hard-coded literals 300000 ms and
30000 ms, so they are not configurable; moreover the memory-buffered variant
sets no body-size option at all (only the disk-staged variant passes
`maxBodyLength: Infinity`). -/
theorem axios_options_not_configurable :
    (¬ ∃ e1 e2 : Env, memoryAxiosOptions e1 ≠ memoryAxiosOptions e2) ∧
    (¬ ∃ e1 e2 : Env, diskAxiosOptions e1 ≠ diskAxiosOptions e2) ∧
    (memoryAxiosOptions (fun _ => none)).maxBodyLength = SizeLimitSetting.unset := by
  refine ⟨?_, ?_, rfl⟩ <;> rintro ⟨e1, e2, h⟩ <;> exact h rfl

/-- Claim C8 (amended): the outbound POST is dispatched with a bounded
timeout of 300 s in the memory-buffered variant and 30 s in the disk-staged
variant, both hard-coded rather than configurable; the disk-staged variant
explicitly sets unlimited body and content size, while the memory-buffered
variant leaves both size options unset. -/
theorem axios_options_values (env : Env) :
    memoryAxiosOptions env =
      ⟨300000, SizeLimitSetting.unset, SizeLimitSetting.unset⟩ ∧
    diskAxiosOptions env =
      ⟨30000, SizeLimitSetting.unlimited, SizeLimitSetting.unlimited⟩ :=
  ⟨rfl, rfl⟩

/-- Claim C9 (counterexample): an upload over the 10 MiB limit never reaches
the relay handler — multer rejects it with LIMIT_FILE_SIZE — but because
`src/server.js` registers no error-handling middleware, the client receives
the framework's default error page rather than a JSON body with an
error/message field. -/
theorem oversize_no_json_error_body :
    memoryErrorMiddlewareRegistered = false ∧
    memoryPipeline (some oversizedFile) (DownstreamBehavior.respond 200 Json.null)
      = PipelineOutcome.frameworkErrorPage "LIMIT_FILE_SIZE" ∧
    hasJsonErrorBody (memoryPipeline (some oversizedFile)
      (DownstreamBehavior.respond 200 Json.null)) = false := by
  have h : ¬ oversizedFile.size ≤ memoryFileSizeLimit := by decide
  refine ⟨rfl, ?_, ?_⟩
  · simp [memoryPipeline, h]
  · simp [memoryPipeline, h, hasJsonErrorBody]

/-- Claim C9 (amended): every upload whose file exceeds the 10 MiB limit of
the memory-buffered variant is rejected by multer before the relay handler
runs (no app response is produced and no outbound call is made), and — since
no error-handling middleware is registered — the response is the framework's
default LIMIT_FILE_SIZE error page, not an application JSON body. -/
theorem oversize_rejected_before_handler (f : UploadedFile)
    (d : DownstreamBehavior) (h : memoryFileSizeLimit < f.size) :
    memoryPipeline (some f) d =
      PipelineOutcome.frameworkErrorPage "LIMIT_FILE_SIZE" := by
  simp [memoryPipeline, Nat.not_le.mpr h]

/-- Witness for the amended claim C9 at a concrete oversized upload. -/
theorem oversize_rejected_before_handler_witness :
    memoryFileSizeLimit < oversizedFile.size ∧
    memoryPipeline (some oversizedFile) DownstreamBehavior.refuse =
      PipelineOutcome.frameworkErrorPage "LIMIT_FILE_SIZE" :=
  ⟨by decide, oversize_rejected_before_handler oversizedFile
    DownstreamBehavior.refuse (by decide)⟩

/-- Claim C10: GET /api/test-salesforce answers 200 on both outcomes of the
token exchange; on success the body has `success: true`, `connected: true`
and the instance URL, and on failure it has `success: false`,
`connected: false` and a message, with no instanceUrl field — a failure
never produces a 5xx status. -/
theorem test_salesforce_always_200 (u m : String) :
    (∀ t : TokenOutcome, (testSalesforceHandler t).status = 200) ∧
    testSalesforceHandler (TokenOutcome.ok u) =
      ⟨200, Json.obj [("success", Json.bool true),
        ("message",
          Json.str "Salesforce connection successful - ready to log data"),
        ("connected", Json.bool true),
        ("instanceUrl", Json.str u),
        ("canSave", Json.bool false),
        ("mode", Json.str "logging")]⟩ ∧
    testSalesforceHandler (TokenOutcome.err m) =
      ⟨200, Json.obj [("success", Json.bool false),
        ("message", Json.str ("Salesforce connection failed: " ++ m)),
        ("connected", Json.bool false)]⟩ ∧
    (testSalesforceHandler (TokenOutcome.err m)).body.getField "instanceUrl"
      = none := by
  refine ⟨fun t => ?_, rfl, rfl, ?_⟩
  · cases t <;> rfl
  · simp [testSalesforceHandler, Json.getField]

end CVRelay
